import Mathlib

/-!
Verification development for the churn-model-evaluation-platform repository.

The definitions below are a shallow embedding of the Python sources:
  * `src/code/orchestration/churn_prediction_pipeline.py`
  * `src/code/orchestration/modeling/churn_model_training.py`

Modelling conventions:
  * pandas column labels are modelled as `String`; a DataFrame is modelled by
    the list of its column labels (`Table`), the only part the verified
    properties depend on.
  * Python `float` values appearing in Evidently reports are modelled as `ℚ`.
  * functions that can raise are modelled with `Except String`; the error
    string records the exception type and message.
  * external effects (S3, MLflow, the database, SNS) are oracles supplied in
    an environment record; each call site reads the corresponding outcome.
  * `str.lower` is modelled on the ASCII range (the repository only uses
    ASCII column names and metric ids).
-/

/-- ASCII model of Python `str.lower` applied to one character (`Char.toLower`
lowercases exactly the ASCII uppercase range). -/
def pyToLower (c : Char) : Char :=
  Char.toLower c

/-- Whitespace as stripped by `str.strip()` (ASCII range). -/
def pyIsSpace (c : Char) : Bool :=
  c == ' ' || c == '\t' || c == '\n' || c == '\r'

/-- One left-to-right pass of `str.replace("  ", " ")`: each non-overlapping
occurrence of two consecutive spaces becomes one space. -/
def collapseDoubleSpace : List Char → List Char
  | [] => []
  | [c] => [c]
  | c1 :: c2 :: rest =>
    if c1 == ' ' && c2 == ' ' then ' ' :: collapseDoubleSpace rest
    else c1 :: collapseDoubleSpace (c2 :: rest)

/-- `str.strip()`: drop leading and trailing whitespace. -/
def pyStrip (l : List Char) : List Char :=
  ((l.dropWhile pyIsSpace).reverse.dropWhile pyIsSpace).reverse

/-- `str.replace(" ", "_")`: every space becomes an underscore. -/
def spaceToUnderscore (l : List Char) : List Char :=
  l.map (fun c => if c == ' ' then '_' else c)

/-- `clean_column_names` applied to a single column label
(`churn_model_training.py`, lines 87-99): lowercase, one replacement pass of
double spaces, strip, then spaces to underscores. -/
def clean_column_name (s : String) : String :=
  String.mk (spaceToUnderscore (pyStrip (collapseDoubleSpace (s.data.map pyToLower))))

/-- A pandas DataFrame, abstracted to its column labels. -/
structure Table where
  columns : List String
deriving DecidableEq, Repr

/-- `clean_column_names` on a DataFrame: renames every column. -/
def clean_column_names (t : Table) : Table :=
  ⟨t.columns.map clean_column_name⟩

/-- `TARGET_COLUMN` from `churn_model_training.py`. -/
def TARGET_COLUMN : String := "churn"

/-- `NUMERICAL_COLUMNS` from `churn_model_training.py`. -/
def NUMERICAL_COLUMNS : List String :=
  ["call_failure", "complains", "subscription_length", "charge_amount",
   "seconds_of_use", "frequency_of_use", "frequency_of_sms",
   "distinct_called_numbers", "age_group", "status", "customer_value"]

/-- `MODEL_NAME` from `churn_model_training.py`. -/
def MODEL_NAME : String := "XGBoostChurnModel"

/-- A single-quote character, used when rendering Python list literals. -/
def pyQuote : String := String.singleton (Char.ofNat 39)

/-- Python `str` rendering of a list of strings, as interpolated by the
f-string in `validate_file_input` (`{input_example.columns.tolist()}`). -/
def pyStrList (cols : List String) : String :=
  "[" ++ String.intercalate ", " (cols.map (fun c => pyQuote ++ c ++ pyQuote)) ++ "]"

/-- `prepare_data` (`churn_model_training.py`, lines 62-84): clean the column
names, require the target column, pop it, then select `NUMERICAL_COLUMNS`
(a missing feature column raises a pandas `KeyError`).  Only the column
structure is modelled; the returned feature frame has exactly the numerical
columns. -/
def prepare_data (t : Table) : Except String Table :=
  let t2 := clean_column_names t
  if t2.columns.contains TARGET_COLUMN then
    let remaining := t2.columns.filter (fun c => c ≠ TARGET_COLUMN)
    if NUMERICAL_COLUMNS.all (fun c => remaining.contains c) then
      Except.ok ⟨NUMERICAL_COLUMNS⟩
    else
      Except.error "KeyError: numerical feature columns missing from the dataset"
  else
    Except.error ("ValueError: Target column " ++ pyQuote ++ TARGET_COLUMN ++ pyQuote ++
      " not found in the dataset.")

/-- Columns of the model input example registered by `evaluate_model`
(`churn_model_training.py`, lines 127-135): `input_example=data_X.head(1)`
where `data_X` is the feature matrix returned by `prepare_data`, so the
example carries exactly the numerical feature columns and never the target. -/
def model_input_example_columns : List String := NUMERICAL_COLUMNS

/-- A character matched by the regex classes `[a-zA-Z0-9_]` and ASCII `\w`. -/
def isWordChar (c : Char) : Bool :=
  c.isAlphanum || c == '_'

/-- Python `s.startswith(p)`. -/
def strStartsWith (s p : String) : Bool :=
  p.data.isPrefixOf s.data

/-- Python `s.endswith(p)`. -/
def strEndsWith (s p : String) : Bool :=
  p.data.isSuffixOf s.data

/-- Helper for `simplify_metric_name`: the regex search
`column=([\w\d_]+)` at the head of the character list, returning the captured
word run when it matches here. -/
def columnCaptureAt (cs : List Char) : Option (List Char) :=
  if "column=".data.isPrefixOf cs then
    let x := (cs.drop 7).takeWhile isWordChar
    if x.isEmpty then none else some x
  else none

/-- Helper for `simplify_metric_name`: `re.search(r"column=([\w\d_]+)", s)`,
scanning left to right for the first position where the pattern matches. -/
def findColumnArg : List Char → Option (List Char)
  | [] => none
  | c :: rest =>
    match columnCaptureAt (c :: rest) with
    | some x => some x
    | none => findColumnArg rest

/-- The lowercased base name of `simplify_metric_name`: the leading
`[a-zA-Z0-9_]+` run captured by `re.match`, lowercased, falling back to the
whole id lowercased when the match fails (first character not a word
character). -/
def simplifyBase (cs : List Char) : List Char :=
  if (cs.takeWhile isWordChar).isEmpty then cs.map pyToLower
  else (cs.takeWhile isWordChar).map pyToLower

/-- `simplify_metric_name` (`churn_prediction_pipeline.py`, lines 533-553):
the lowercased function name, with `_X` (lowercased) appended when a
`column=X` argument occurs anywhere in the id. -/
def simplify_metric_name (metric_id : String) : String :=
  match findColumnArg metric_id.data with
  | some x => String.mk (simplifyBase metric_id.data ++ '_' :: x.map pyToLower)
  | none => String.mk (simplifyBase metric_id.data)

/-- The value carried by one Evidently metric: a scalar, a mapping of
sub-labels to values, or anything else. -/
inductive MetricValue where
  | num (q : ℚ)
  | dict (kvs : List (String × MetricValue))
  | other

/-- One entry of `drift_report["metrics"]`. -/
structure Metric where
  metric_id : String
  value : MetricValue

/-- An Evidently report, abstracted to its list of metrics. -/
abbrev DriftReport := List Metric

/-- The rows produced for one metric by the loop body of
`parse_and_save_drift_metrics` (`churn_prediction_pipeline.py`, lines
498-527): a scalar becomes one `(simplified name, value)` row; a dict becomes
one row per sub-key whose sub-value is numeric, named
`{simplified}[{subkey}]`; every other shape is skipped. -/
def metricRows (m : Metric) : List (String × ℚ) :=
  match m.value with
  | MetricValue.num q => [(simplify_metric_name m.metric_id, q)]
  | MetricValue.dict kvs =>
    kvs.filterMap (fun p =>
      match p.2 with
      | MetricValue.num q =>
        some (simplify_metric_name m.metric_id ++ "[" ++ p.1 ++ "]", q)
      | _ => none)
  | MetricValue.other => []

/-- All rows committed by `parse_and_save_drift_metrics` for a report. -/
def drift_metric_rows (r : DriftReport) : List (String × ℚ) :=
  (r.map metricRows).flatten

/-- Python `int(...)` on a numeric value: truncation toward zero. -/
def ratTruncate (q : ℚ) : Int :=
  if 0 ≤ q then q.floor else q.ceil

/-- Look up `value[k]` and apply `float(...)`: a missing key raises
`KeyError`, a non-numeric entry raises `TypeError`. -/
def dictFloat (kvs : List (String × MetricValue)) (k : String) : Except String ℚ :=
  match kvs.lookup k with
  | some (MetricValue.num q) => Except.ok q
  | some _ => Except.error "TypeError: float() argument is not a number"
  | none => Except.error ("KeyError: " ++ k)

/-- `float(value["share"])` and `int(value["count"])` as read by
`assess_data_drift`; subscripting a non-dict raises `TypeError`. -/
def driftedCountValues (v : MetricValue) : Except String (ℚ × ℚ) :=
  match v with
  | MetricValue.dict kvs => do
    let s ← dictFloat kvs "share"
    let c ← dictFloat kvs "count"
    pure (s, c)
  | _ => Except.error "TypeError: value is not subscriptable"

/-- Python `str.split` with a single-character separator, on character
lists (used for `split("(")` and `split("=")`). -/
def splitOnChar (sep : Char) : List Char → List (List Char)
  | [] => [[]]
  | c :: rest =>
    let r := splitOnChar sep rest
    if c == sep then [] :: r
    else
      match r with
      | h :: t => (c :: h) :: t
      | [] => [[c]]

/-- `metric.get("metric_id").split("(")[1].split("=")[1].strip(")")` from
`assess_data_drift`; a missing separator leaves fewer than two parts and the
`[1]` subscript raises `IndexError`. -/
def extractDriftColumn (metric_id : String) : Except String String :=
  match splitOnChar '(' metric_id.data with
  | _ :: part1 :: _ =>
    match splitOnChar '=' part1 with
    | _ :: part2 :: _ =>
      Except.ok (String.mk (((part2.dropWhile (fun c => c == ')')).reverse.dropWhile
        (fun c => c == ')')).reverse))
    | _ => Except.error "IndexError: list index out of range"
  | _ => Except.error "IndexError: list index out of range"

/-- Loop of `assess_data_drift` (`churn_prediction_pipeline.py`, lines
408-423), threading the three accumulators through the metric list. -/
def assessDriftLoop : List Metric → Bool → Int → List String →
    Except String (Bool × Int × List String)
  | [], d, n, cols => Except.ok (d, n, cols)
  | m :: rest, d, n, cols =>
    if strStartsWith m.metric_id "DriftedColumnsCount" then
      match driftedCountValues m.value with
      | Except.error e => Except.error e
      | Except.ok (s, c) =>
        assessDriftLoop rest (decide (mkRat 1 2 < s)) (ratTruncate c) cols
    else if strStartsWith m.metric_id "ValueDrift" then
      match m.value with
      | MetricValue.num q =>
        if q < mkRat 1 20 then
          match extractDriftColumn m.metric_id with
          | Except.error e => Except.error e
          | Except.ok col => assessDriftLoop rest d n (cols ++ [col])
        else assessDriftLoop rest d n cols
      | _ => Except.error "TypeError: float() argument is not a number"
    else assessDriftLoop rest d n cols

/-- `assess_data_drift` (`churn_prediction_pipeline.py`, lines 395-431). -/
def assess_data_drift (r : DriftReport) : Except String (Bool × Int × List String) :=
  assessDriftLoop r false 0 []

/-- Inner loop of `assess_prediction_scores` for one score name. -/
def assessScoreLoop (score : String) (threshold : ℚ) :
    List Metric → Bool × Nat × List (String × ℚ) →
    Except String (Bool × Nat × List (String × ℚ))
  | [], st => Except.ok st
  | m :: rest, (b, n, l) =>
    if strStartsWith m.metric_id (score ++ "(") then
      match m.value with
      | MetricValue.num q =>
        if q < threshold then
          assessScoreLoop score threshold rest (true, n + 1, l ++ [(score, q)])
        else assessScoreLoop score threshold rest (b, n, l)
      | _ => Except.error "TypeError: float() argument is not a number"
    else assessScoreLoop score threshold rest (b, n, l)

/-- Outer loop of `assess_prediction_scores` over the fixed score names. -/
def assessScoresOuter (r : DriftReport) (threshold : ℚ) :
    List String → Bool × Nat × List (String × ℚ) →
    Except String (Bool × Nat × List (String × ℚ))
  | [], st => Except.ok st
  | s :: rest, st =>
    match assessScoreLoop s threshold r st with
    | Except.error e => Except.error e
    | Except.ok st2 => assessScoresOuter r threshold rest st2

/-- `assess_prediction_scores` (`churn_prediction_pipeline.py`, lines
434-485). -/
def assess_prediction_scores (r : DriftReport) (threshold : ℚ) :
    Except String (Bool × Nat × List (String × ℚ)) :=
  assessScoresOuter r threshold ["F1Score", "Precision", "Recall", "Accuracy"] (false, 0, [])

/-- Python `key.split("/")[-1]`: the suffix after the last slash. -/
def filenameOf (key : String) : String :=
  String.mk ((key.data.reverse.takeWhile (fun c => c != '/')).reverse)

/-- `FOLDER_INPUT` from `churn_prediction_pipeline.py`. -/
def FOLDER_INPUT : String := "data/input"

/-- `FOLDER_PROCESSING` from `churn_prediction_pipeline.py`. -/
def FOLDER_PROCESSING : String := "data/processing"

/-- `FOLDER_PROCESSED` from `churn_prediction_pipeline.py`. -/
def FOLDER_PROCESSED : String := "data/processed"

/-- `FOLDER_ERRORED` from `churn_prediction_pipeline.py`. -/
def FOLDER_ERRORED : String := "data/errored"

/-- Observable events of one pipeline run.  `moved` records a completed
`move_to_folder` call: source key, destination folder, filename, and the
message appended to the audit log line. -/
inductive Ev where
  | fetchedModel : Ev
  | extChecked (passed : Bool) : Ev
  | readData : Ev
  | renamed (src dst : String) : Ev
  | moved (src folder filename message : String) : Ev
deriving DecidableEq, Repr

/-- Oracle outcomes for every external call the flow makes.  `Except.error`
means the call raised; `moveResult i` is the outcome of the i-th
`move_to_folder` call of the run (`none` = success). -/
structure PipelineEnv where
  headBucket : Except String Bool
  headObject : Except String Unit
  fetchModel : Except String (List String)
  readFile : Except String Table
  predict : Except String Unit
  logPredictions : Except String Nat
  genReport : Except String DriftReport
  saveReport : Except String Unit
  driftAlert : Except String Unit
  scoresAlert : Except String Unit
  moveResult : Nat → Option String

/-- `move_to_folder` (`churn_prediction_pipeline.py`, lines 642-680), modelled
as an atomic transition: on success the object is copied to
`{folder}/{filename}`, the original deleted, and one audit line carrying
`message` appended; on failure the storage exception propagates to the
caller.  Returns the new key and the recorded event. -/
def move_to_folder (env : PipelineEnv) (idx : Nat) (key folder message : String) :
    Except String (String × Ev) :=
  match env.moveResult idx with
  | some e => Except.error e
  | none =>
    let fn := filenameOf key
    Except.ok (folder ++ "/" ++ fn, Ev.moved key folder fn message)

/-- `validate_file_input` (`churn_prediction_pipeline.py`, lines 116-161).
The S3 read of the object body is an oracle (`readFile`); the events record
that the extension check ran and whether the content was read.  Returns the
`(ok, data, error)` triple of the source together with the events. -/
def validate_file_input (key : String) (readFile : Except String Table)
    (inputExampleCols : List String) :
    (Bool × Option Table × Option String) × List Ev :=
  if !(strEndsWith key ".csv") then
    ((false, none, some ("Invalid file type for " ++ key ++ ". Expected a CSV file.")),
      [Ev.extChecked false])
  else
    match readFile with
    | Except.error e =>
      ((false, none, some ("Error reading CSV file " ++ key ++ ": " ++ e)),
        [Ev.extChecked true, Ev.readData])
    | Except.ok data =>
      if !(inputExampleCols.all (fun c => (clean_column_names data).columns.contains c)) then
        ((false, none, some ("Input file " ++ key ++ " does not match expected structure. " ++
            "Expected columns: " ++ pyStrList inputExampleCols)),
          [Ev.extChecked true, Ev.readData])
      else
        ((true, some (clean_column_names data), none), [Ev.extChecked true, Ev.readData])

/-- Python `filename.replace(".csv", "")` inside `log_predictions`. -/
def removeCsvSubstr : List Char → List Char
  | '.' :: 'c' :: 's' :: 'v' :: rest => removeCsvSubstr rest
  | c :: rest => c :: removeCsvSubstr rest
  | [] => []

/-- The predictions filename built by `log_predictions`
(`churn_prediction_pipeline.py`, lines 237-246). -/
def predictionsFilename (key : String) (version : Nat) : String :=
  String.mk (removeCsvSubstr (filenameOf key).data) ++ "_predictions_" ++ MODEL_NAME ++
    "_v" ++ toString version ++ ".csv"

/-- The wrapping applied by the flow's top-level exception handler
(`churn_prediction_pipeline.py`, line 902). -/
def wrapPipelineError (m : String) : String :=
  "An unexpected error occurred in the churn prediction pipeline: " ++ m

/-- How the `try` body of the flow ended: normal return, or an exception with
its message, to be handled with the tracked current key. -/
inductive BodyOut where
  | finished : BodyOut
  | raised (message latest : String) : BodyOut
deriving DecidableEq, Repr

/-- The `try` body of `churn_prediction_pipeline` (lines 823-899): existence
checks, model fetch, move to PROCESSING, validation, preparation, prediction,
prediction logging (a rename inside PROCESSING), report generation and
persistence, the two assessments with their alerts, and the final move to
PROCESSED.  Returns the events so far, the index of the next
`move_to_folder` call, and how the body ended. -/
def pipelineBody (env : PipelineEnv) (key : String) : List Ev × Nat × BodyOut :=
  match env.headBucket with
  | Except.error m => ([], 0, BodyOut.raised m key)
  | Except.ok b =>
    if !b then ([], 0, BodyOut.finished)
    else
      match env.headObject with
      | Except.error _ => ([], 0, BodyOut.finished)
      | Except.ok _ =>
        match env.fetchModel with
        | Except.error m => ([], 0, BodyOut.raised m key)
        | Except.ok inputCols =>
          match move_to_folder env 0 key FOLDER_PROCESSING "" with
          | Except.error m => ([Ev.fetchedModel], 1, BodyOut.raised m key)
          | Except.ok (pk, ev1) =>
            let vevs := (validate_file_input pk env.readFile inputCols).2
            match (validate_file_input pk env.readFile inputCols).1 with
            | (false, _, errMsg) =>
              (match move_to_folder env 1 pk FOLDER_ERRORED (errMsg.getD "") with
               | Except.error m =>
                 (Ev.fetchedModel :: ev1 :: vevs, 2, BodyOut.raised m pk)
               | Except.ok (_, ev2) =>
                 (Ev.fetchedModel :: ev1 :: vevs ++ [ev2], 2, BodyOut.finished))
            | (true, none, _) =>
              (Ev.fetchedModel :: ev1 :: vevs, 1,
                BodyOut.raised "TypeError: NoneType is not a DataFrame" pk)
            | (true, some df, _) =>
              match prepare_data df with
              | Except.error m => (Ev.fetchedModel :: ev1 :: vevs, 1, BodyOut.raised m pk)
              | Except.ok _ =>
                match env.predict with
                | Except.error m => (Ev.fetchedModel :: ev1 :: vevs, 1, BodyOut.raised m pk)
                | Except.ok _ =>
                  match env.logPredictions with
                  | Except.error m => (Ev.fetchedModel :: ev1 :: vevs, 1, BodyOut.raised m pk)
                  | Except.ok ver =>
                    let pk2 := FOLDER_PROCESSING ++ "/" ++ predictionsFilename pk ver
                    let tr1 := Ev.fetchedModel :: ev1 :: vevs ++ [Ev.renamed pk pk2]
                    match env.genReport with
                    | Except.error m => (tr1, 1, BodyOut.raised m pk2)
                    | Except.ok rpt =>
                      match env.saveReport with
                      | Except.error m => (tr1, 1, BodyOut.raised m pk2)
                      | Except.ok _ =>
                        match assess_data_drift rpt with
                        | Except.error m => (tr1, 1, BodyOut.raised m pk2)
                        | Except.ok (isDrifted, _, _) =>
                          match (if isDrifted then env.driftAlert else Except.ok ()) with
                          | Except.error m => (tr1, 1, BodyOut.raised m pk2)
                          | Except.ok _ =>
                            match assess_prediction_scores rpt (mkRat 7 10) with
                            | Except.error m => (tr1, 1, BodyOut.raised m pk2)
                            | Except.ok (anyBelow, _, _) =>
                              match (if anyBelow then env.scoresAlert else Except.ok ()) with
                              | Except.error m => (tr1, 1, BodyOut.raised m pk2)
                              | Except.ok _ =>
                                match move_to_folder env 1 pk2 FOLDER_PROCESSED "" with
                                | Except.error m => (tr1, 2, BodyOut.raised m pk2)
                                | Except.ok (_, ev3) =>
                                  (tr1 ++ [ev3], 2, BodyOut.finished)

/-- `churn_prediction_pipeline` (lines 813-905): run the `try` body; any
exception it raises is caught by the top-level handler, which moves the
tracked current key to ERRORED with the wrapped message as the audit note.
A failure of that final move propagates out of the flow (`Except.error`). -/
def churn_prediction_pipeline (env : PipelineEnv) (key : String) :
    List Ev × Except String Unit :=
  match pipelineBody env key with
  | (tr, _, BodyOut.finished) => (tr, Except.ok ())
  | (tr, idx, BodyOut.raised m latest) =>
    match move_to_folder env idx latest FOLDER_ERRORED (wrapPipelineError m) with
    | Except.ok (_, ev) => (tr ++ [ev], Except.ok ())
    | Except.error e2 => (tr, Except.error e2)

/-- A terminal folder transition: a completed move to PROCESSED or ERRORED. -/
def isTerminalMove : Ev → Bool
  | Ev.moved _ folder _ _ => folder == FOLDER_PROCESSED || folder == FOLDER_ERRORED
  | _ => false

/-- Number of terminal folder transitions in a trace. -/
def terminalCount (tr : List Ev) : Nat :=
  (tr.filter isTerminalMove).length

/-- A Python exception surfaced by `save_report_to_database`: either the
wrapped `RuntimeError` raised by the handler, or the `UnboundLocalError`
raised when `session.rollback()` / `session.close()` run with `session`
never assigned. -/
inductive PyError where
  | runtimeError (message : String) : PyError
  | unboundLocal : PyError
deriving DecidableEq, Repr

/-- Oracle outcomes for the four fallible steps inside
`save_report_to_database`: loading the secrets, opening the session,
parsing-and-committing the rows, and the Grafana grant. -/
structure DbEnv where
  loadSecrets : Except String Unit
  connect : Except String Unit
  parseSave : Except String Unit
  grantAccess : Except String Unit
deriving Repr

/-- Outcome of one `save_report_to_database` call: the value or exception it
ends with, whether `session.rollback()` ran, and whether `session.close()`
ran. -/
structure DbOutcome where
  result : Except PyError Unit
  rolledBack : Bool
  closed : Bool
deriving Repr

/-- The `except`/`finally` tail of `save_report_to_database` (lines 385-392).
`sessionBound` records whether the local variable `session` was assigned
before the exception; when it was not, both `session.rollback()` in the
handler and `session.close()` in the `finally` block raise
`UnboundLocalError`, which replaces the in-flight exception. -/
def dbHandleAndClose (sessionBound : Bool) (exn : Option String) : DbOutcome :=
  match exn with
  | none => { result := Except.ok (), rolledBack := false, closed := true }
  | some e =>
    if sessionBound then
      { result := Except.error (PyError.runtimeError
          ("Failed to save Evidently report run to database: " ++ e)),
        rolledBack := true, closed := true }
    else
      { result := Except.error PyError.unboundLocal, rolledBack := false, closed := false }

/-- `save_report_to_database` (`churn_prediction_pipeline.py`, lines
358-392): the `try` block loads the secrets, opens the session, commits the
flattened rows in one transaction, then runs the grant; the handler rolls
back and re-raises wrapped; the `finally` block closes the session. -/
def save_report_to_database (env : DbEnv) : DbOutcome :=
  match env.loadSecrets with
  | Except.error e => dbHandleAndClose false (some e)
  | Except.ok _ =>
    match env.connect with
    | Except.error e => dbHandleAndClose false (some e)
    | Except.ok _ =>
      match env.parseSave with
      | Except.error e => dbHandleAndClose true (some e)
      | Except.ok _ =>
        match env.grantAccess with
        | Except.error e => dbHandleAndClose true (some e)
        | Except.ok _ => dbHandleAndClose true none


theorem char_toNat_ofNat (n : Nat) (h : n.isValidChar) : (Char.ofNat n).toNat = n := by
  rw [Char.ofNat, dif_pos h]
  simp [Char.ofNatAux, Char.toNat, UInt32.toNat, BitVec.toNat_ofNatLt]

theorem pyToLower_pyToLower (c : Char) : pyToLower (pyToLower c) = pyToLower c := by
  unfold pyToLower Char.toLower
  by_cases h : c.toNat ≥ 65 ∧ c.toNat ≤ 90
  · rw [if_pos h]
    have hv : (c.toNat + 32).isValidChar := Or.inl (by omega)
    have ht : (Char.ofNat (c.toNat + 32)).toNat = c.toNat + 32 := char_toNat_ofNat _ hv
    rw [if_neg (by omega : ¬((Char.ofNat (c.toNat + 32)).toNat ≥ 65 ∧
      (Char.ofNat (c.toNat + 32)).toNat ≤ 90))]
  · rw [if_neg h, if_neg h]

theorem mem_of_mem_collapseDoubleSpace :
    ∀ (l : List Char), ∀ c ∈ collapseDoubleSpace l, c ∈ l
  | [] => by simp [collapseDoubleSpace]
  | [a] => by simp [collapseDoubleSpace]
  | a :: b :: rest => by
    intro c hc
    by_cases h : (a == ' ' && b == ' ') = true
    · rw [show collapseDoubleSpace (a :: b :: rest) = ' ' :: collapseDoubleSpace rest by
        simp [collapseDoubleSpace, h]] at hc
      rcases List.mem_cons.mp hc with h1 | h1
      · subst h1
        have ha : a = ' ' := eq_of_beq ((Bool.and_eq_true _ _).mp h).1
        simp [ha]
      · exact List.mem_cons_of_mem _ (List.mem_cons_of_mem _
          (mem_of_mem_collapseDoubleSpace rest c h1))
    · rw [show collapseDoubleSpace (a :: b :: rest) = a :: collapseDoubleSpace (b :: rest) by
        simp [collapseDoubleSpace, h]] at hc
      rcases List.mem_cons.mp hc with h1 | h1
      · simp [h1]
      · exact List.mem_cons_of_mem _ (mem_of_mem_collapseDoubleSpace (b :: rest) c h1)

theorem collapseDoubleSpace_of_no_space :
    ∀ (l : List Char), (' ' : Char) ∉ l → collapseDoubleSpace l = l
  | [], _ => rfl
  | [_], _ => rfl
  | a :: b :: rest, h => by
    have ha : (a == ' ') = false := by
      rw [Bool.eq_false_iff]
      intro e
      exact h (by simp [eq_of_beq e])
    have hb : (' ' : Char) ∉ b :: rest := fun e => h (List.mem_cons_of_mem a e)
    have hcond : (a == ' ' && b == ' ') = false := by
      rw [ha, Bool.false_and]
    rw [show collapseDoubleSpace (a :: b :: rest) = a :: collapseDoubleSpace (b :: rest) by
      simp [collapseDoubleSpace, hcond]]
    rw [collapseDoubleSpace_of_no_space (b :: rest) hb]

theorem spaceToUnderscore_no_space (l : List Char) : (' ' : Char) ∉ spaceToUnderscore l := by
  intro h
  unfold spaceToUnderscore at h
  rcases List.mem_map.mp h with ⟨b, _, he⟩
  by_cases hb : (b == ' ') = true
  · rw [if_pos hb] at he
    exact absurd he (by decide)
  · rw [if_neg hb] at he
    rw [he] at hb
    exact hb (by rfl)

theorem mem_of_mem_pyStrip (l : List Char) (c : Char) (h : c ∈ pyStrip l) : c ∈ l := by
  unfold pyStrip at h
  rw [List.mem_reverse] at h
  have h2 := (List.dropWhile_suffix pyIsSpace).subset h
  rw [List.mem_reverse] at h2
  exact (List.dropWhile_suffix pyIsSpace).subset h2

theorem head?_dropWhile_false (p : Char → Bool) :
    ∀ (l : List Char) (c : Char), (l.dropWhile p).head? = some c → p c = false
  | [], c => by simp
  | a :: t, c => by
    intro h
    rw [List.dropWhile_cons] at h
    by_cases hp : p a = true
    · rw [if_pos hp] at h
      exact head?_dropWhile_false p t c h
    · rw [if_neg hp] at h
      simp at h
      rw [← h]
      exact Bool.eq_false_iff.mpr hp

theorem pyStrip_getLast?_false (l : List Char) (c : Char)
    (h : (pyStrip l).getLast? = some c) : pyIsSpace c = false := by
  unfold pyStrip at h
  rw [List.getLast?_reverse] at h
  exact head?_dropWhile_false pyIsSpace _ c h

theorem pyStrip_head?_false (l : List Char) (c : Char)
    (h : (pyStrip l).head? = some c) : pyIsSpace c = false := by
  unfold pyStrip at h
  rw [List.head?_reverse] at h
  rcases List.dropWhile_suffix (l := (l.dropWhile pyIsSpace).reverse) pyIsSpace with ⟨t, ht⟩
  have hne : (List.dropWhile pyIsSpace (l.dropWhile pyIsSpace).reverse) ≠ [] := by
    intro e
    rw [e] at h
    simp at h
  have e1 := List.getLast?_append_of_ne_nil t hne
  rw [ht] at e1
  rw [← e1, List.getLast?_reverse] at h
  exact head?_dropWhile_false pyIsSpace _ c h

theorem ne_space_of_pyIsSpace_false {c : Char} (h : pyIsSpace c = false) : ¬(c == ' ') = true := by
  intro e
  rw [eq_of_beq e] at h
  exact absurd h (by decide)

theorem pyStrip_eq_self (l : List Char)
    (h1 : ∀ c, l.head? = some c → pyIsSpace c = false)
    (h2 : ∀ c, l.getLast? = some c → pyIsSpace c = false) : pyStrip l = l := by
  have e1 : l.dropWhile pyIsSpace = l := by
    cases l with
    | nil => rfl
    | cons a t =>
      have := h1 a rfl
      rw [List.dropWhile_cons, if_neg (by simp [this])]
  unfold pyStrip
  rw [e1]
  have e2 : l.reverse.dropWhile pyIsSpace = l.reverse := by
    cases hr : l.reverse with
    | nil => rfl
    | cons a t =>
      have ha : l.getLast? = some a := by
        rw [← List.head?_reverse, hr]
        rfl
      have := h2 a ha
      rw [List.dropWhile_cons, if_neg (by simp [this])]
  rw [e2, List.reverse_reverse]

theorem spaceToUnderscore_idem (l : List Char) :
    spaceToUnderscore (spaceToUnderscore l) = spaceToUnderscore l := by
  unfold spaceToUnderscore
  rw [List.map_map]
  apply List.map_congr_left
  intro a _
  by_cases h : (a == ' ') = true
  · simp only [Function.comp_apply, if_pos h]
    rw [if_neg (by decide : ¬(('_' : Char) == ' ') = true)]
  · simp only [Function.comp_apply, if_neg h, if_neg h]

theorem clean_column_name_idem (s : String) :
    clean_column_name (clean_column_name s) = clean_column_name s := by
  unfold clean_column_name
  set m : List Char := pyStrip (collapseDoubleSpace (s.data.map pyToLower)) with hm
  show String.mk (spaceToUnderscore (pyStrip (collapseDoubleSpace
    ((spaceToUnderscore m).map pyToLower)))) = String.mk (spaceToUnderscore m)
  have hfix : ∀ c ∈ spaceToUnderscore m, pyToLower c = c := by
    intro c hc
    unfold spaceToUnderscore at hc
    rcases List.mem_map.mp hc with ⟨b, hb, he⟩
    have hbmem : b ∈ s.data.map pyToLower :=
      mem_of_mem_collapseDoubleSpace _ b (mem_of_mem_pyStrip _ b (hm ▸ hb))
    rcases List.mem_map.mp hbmem with ⟨a, _, hba⟩
    by_cases hsp : (b == ' ') = true
    · rw [if_pos hsp] at he
      rw [← he]
      rfl
    · rw [if_neg hsp] at he
      rw [← he, ← hba]
      exact pyToLower_pyToLower a
  have e1 : (spaceToUnderscore m).map pyToLower = spaceToUnderscore m := by
    rw [List.map_congr_left hfix, List.map_id']
  rw [e1]
  have hnosp : (' ' : Char) ∉ spaceToUnderscore m := spaceToUnderscore_no_space m
  rw [collapseDoubleSpace_of_no_space _ hnosp]
  have endsFix : ∀ (b : Char), pyIsSpace b = false →
      pyIsSpace (if (b == ' ') = true then '_' else b) = false := by
    intro b hbs
    rw [if_neg (ne_space_of_pyIsSpace_false hbs)]
    exact hbs
  have e3 : pyStrip (spaceToUnderscore m) = spaceToUnderscore m := by
    apply pyStrip_eq_self
    · intro c hc
      unfold spaceToUnderscore at hc
      rw [List.head?_map] at hc
      cases hb : m.head? with
      | none => rw [hb] at hc; exact absurd hc (by simp)
      | some b =>
        rw [hb] at hc
        have hcb : (if (b == ' ') = true then '_' else b) = c := Option.some.inj hc
        have hbs : pyIsSpace b = false := pyStrip_head?_false _ b (hm ▸ hb)
        rw [← hcb]
        exact endsFix b hbs
    · intro c hc
      unfold spaceToUnderscore at hc
      rw [List.getLast?_map] at hc
      cases hb : m.getLast? with
      | none => rw [hb] at hc; exact absurd hc (by simp)
      | some b =>
        rw [hb] at hc
        have hcb : (if (b == ' ') = true then '_' else b) = c := Option.some.inj hc
        have hbs : pyIsSpace b = false := pyStrip_getLast?_false _ b (hm ▸ hb)
        rw [← hcb]
        exact endsFix b hbs
  rw [e3, spaceToUnderscore_idem]

theorem clean_column_names_idem (t : Table) :
    clean_column_names (clean_column_names t) = clean_column_names t := by
  simp [clean_column_names, Function.comp, clean_column_name_idem]

theorem isTerminalMove_moved (a f b c : String) :
    isTerminalMove (Ev.moved a f b c) = (f == FOLDER_PROCESSED || f == FOLDER_ERRORED) := rfl

theorem isTerminalMove_fetchedModel : isTerminalMove Ev.fetchedModel = false := rfl

theorem isTerminalMove_extChecked (b : Bool) : isTerminalMove (Ev.extChecked b) = false := rfl

theorem isTerminalMove_readData : isTerminalMove Ev.readData = false := rfl

theorem isTerminalMove_renamed (a b : String) : isTerminalMove (Ev.renamed a b) = false := rfl

theorem folder_beq_1 : (FOLDER_PROCESSING == FOLDER_PROCESSED) = false := by decide

theorem folder_beq_2 : (FOLDER_PROCESSING == FOLDER_ERRORED) = false := by decide

theorem folder_beq_3 : (FOLDER_ERRORED == FOLDER_PROCESSED) = false := by decide

theorem folder_beq_4 : (FOLDER_ERRORED == FOLDER_ERRORED) = true := by decide

theorem folder_beq_5 : (FOLDER_PROCESSED == FOLDER_PROCESSED) = true := by decide

theorem folder_beq_6 : (FOLDER_PROCESSED == FOLDER_ERRORED) = false := by decide

theorem validate_events_no_terminal (k : String) (r : Except String Table) (c : List String) :
    ((validate_file_input k r c).2).filter isTerminalMove = [] := by
  unfold validate_file_input
  repeat' split
  all_goals rfl

set_option maxHeartbeats 2000000 in
theorem pipelineBody_count (env : PipelineEnv) (key : String) (tr : List Ev) (idx : Nat)
    (out : BodyOut) (h : pipelineBody env key = (tr, idx, out)) :
    terminalCount tr ≤ 1 ∧
    (∀ m latest, out = BodyOut.raised m latest → terminalCount tr = 0) := by
  unfold pipelineBody at h
  rcases hm0 : env.moveResult 0 with _ | e0 <;>
    rcases hm1 : env.moveResult 1 with _ | e1 <;>
    simp only [move_to_folder, hm0, hm1] at h <;>
    (repeat' split at h) <;>
    (simp only [Prod.mk.injEq] at h; obtain ⟨h1, h2, h3⟩ := h; subst h1; subst h2; subst h3) <;>
    constructor <;>
    try (intro m latest hml)
  all_goals
    simp_all [terminalCount, List.filter_append, List.filter_cons, isTerminalMove_moved,
      isTerminalMove_fetchedModel, isTerminalMove_extChecked, isTerminalMove_readData,
      isTerminalMove_renamed, folder_beq_1, folder_beq_2, folder_beq_3, folder_beq_4,
      folder_beq_5, folder_beq_6, validate_events_no_terminal]

/-- A metric whose id starts with `DriftedColumnsCount`. -/
def isDriftedColumnsMetric (m : Metric) : Bool :=
  strStartsWith m.metric_id "DriftedColumnsCount"

/-- A metric whose id starts with `ValueDrift`. -/
def isValueDriftMetric (m : Metric) : Bool :=
  strStartsWith m.metric_id "ValueDrift"

/-- A metric whose scalar value is below the per-column drift threshold 0.05. -/
def valueBelowDriftThreshold (m : Metric) : Bool :=
  match m.value with
  | MetricValue.num q => decide (q < mkRat 1 20)
  | _ => false

/-- The column name `assess_data_drift` extracts from a metric id. -/
def extractedColumnOf (m : Metric) : String :=
  match extractDriftColumn m.metric_id with
  | Except.ok c => c
  | Except.error _ => ""

/-- Specification of the drifted-column list: the extracted column of every
`ValueDrift` metric whose value is below 0.05, in report order. -/
def driftedColumnsSpec (r : DriftReport) : List String :=
  (r.filter (fun m => isValueDriftMetric m && valueBelowDriftThreshold m)).map extractedColumnOf

/-- Well-formedness of one metric for `assess_data_drift`: a
`DriftedColumnsCount` metric carries a dict with numeric `share` and `count`;
a `ValueDrift` metric carries a numeric value and a parsable `column=` id. -/
def wfAssessMetric (m : Metric) : Bool :=
  if isDriftedColumnsMetric m then (driftedCountValues m.value).isOk
  else if isValueDriftMetric m then
    (match m.value with
     | MetricValue.num _ => true
     | _ => false) && (extractDriftColumn m.metric_id).isOk
  else true

theorem driftedColumnsSpec_append (a b : DriftReport) :
    driftedColumnsSpec (a ++ b) = driftedColumnsSpec a ++ driftedColumnsSpec b := by
  simp [driftedColumnsSpec, List.filter_append]

theorem not_valueDrift_of_driftedColumns (m : Metric)
    (h : isDriftedColumnsMetric m = true) : isValueDriftMetric m = false := by
  unfold isDriftedColumnsMetric strStartsWith at h
  unfold isValueDriftMetric strStartsWith
  have hp := List.prefix_iff_eq_take.mp (List.isPrefixOf_iff_prefix.mp h)
  by_contra hv
  rw [Bool.not_eq_false] at hv
  have hq := List.prefix_iff_eq_take.mp (List.isPrefixOf_iff_prefix.mp hv)
  rw [show ("ValueDrift".data).length = 10 from rfl] at hq
  rw [show ("DriftedColumnsCount".data).length = 19 from rfl] at hp
  have e3 : List.take 10 m.metric_id.data =
      List.take 10 (List.take 19 m.metric_id.data) := by
    rw [List.take_take]
    norm_num
  rw [← hp] at e3
  rw [e3] at hq
  exact absurd hq (by decide)

theorem assessDriftLoop_cons_dcc (m : Metric) (rest : List Metric) (d : Bool) (n : Int)
    (cols : List String) (s c : ℚ)
    (hdcc : strStartsWith m.metric_id "DriftedColumnsCount" = true)
    (hval : driftedCountValues m.value = Except.ok (s, c)) :
    assessDriftLoop (m :: rest) d n cols =
      assessDriftLoop rest (decide (mkRat 1 2 < s)) (ratTruncate c) cols := by
  simp only [assessDriftLoop, hdcc, hval, if_true]

theorem assessDriftLoop_cons_vd_lt (m : Metric) (rest : List Metric) (d : Bool) (n : Int)
    (cols : List String) (q : ℚ) (col : String)
    (hdcc : strStartsWith m.metric_id "DriftedColumnsCount" = false)
    (hvd : strStartsWith m.metric_id "ValueDrift" = true)
    (hval : m.value = MetricValue.num q) (hq : q < mkRat 1 20)
    (hcol : extractDriftColumn m.metric_id = Except.ok col) :
    assessDriftLoop (m :: rest) d n cols = assessDriftLoop rest d n (cols ++ [col]) := by
  simp only [assessDriftLoop, hdcc, hvd, hval, hcol, Bool.false_eq_true, if_false, if_true]
  rw [if_pos hq]

theorem assessDriftLoop_cons_vd_ge (m : Metric) (rest : List Metric) (d : Bool) (n : Int)
    (cols : List String) (q : ℚ)
    (hdcc : strStartsWith m.metric_id "DriftedColumnsCount" = false)
    (hvd : strStartsWith m.metric_id "ValueDrift" = true)
    (hval : m.value = MetricValue.num q) (hq : ¬(q < mkRat 1 20)) :
    assessDriftLoop (m :: rest) d n cols = assessDriftLoop rest d n cols := by
  simp only [assessDriftLoop, hdcc, hvd, hval, Bool.false_eq_true, if_false, if_true]
  rw [if_neg hq]

theorem assessDriftLoop_cons_skip (m : Metric) (rest : List Metric) (d : Bool) (n : Int)
    (cols : List String)
    (hdcc : strStartsWith m.metric_id "DriftedColumnsCount" = false)
    (hvd : strStartsWith m.metric_id "ValueDrift" = false) :
    assessDriftLoop (m :: rest) d n cols = assessDriftLoop rest d n cols := by
  simp only [assessDriftLoop, hdcc, hvd, Bool.false_eq_true, if_false]

theorem assessDriftLoop_append (l rest : List Metric) (d : Bool) (n : Int) (cols : List String)
    (h : ∀ m ∈ l, wfAssessMetric m = true ∧ isDriftedColumnsMetric m = false) :
    assessDriftLoop (l ++ rest) d n cols =
      assessDriftLoop rest d n (cols ++ driftedColumnsSpec l) := by
  induction l generalizing cols with
  | nil => simp [driftedColumnsSpec]
  | cons m l ih =>
    have hm := h m (List.mem_cons_self m l)
    have hl := fun x hx => h x (List.mem_cons_of_mem m hx)
    have hdcc : strStartsWith m.metric_id "DriftedColumnsCount" = false := hm.2
    have hwf := hm.1
    rw [wfAssessMetric, if_neg (by simp [isDriftedColumnsMetric, hdcc])] at hwf
    rw [List.cons_append]
    by_cases hvd : isValueDriftMetric m = true
    · rw [if_pos (by simpa [isValueDriftMetric] using hvd)] at hwf
      cases hval : m.value with
      | num q =>
        have hex : (extractDriftColumn m.metric_id).isOk = true := by
          rw [hval] at hwf
          simpa using hwf
        cases hcol : extractDriftColumn m.metric_id with
        | error e =>
          rw [hcol] at hex
          exact absurd hex (by simp [Except.isOk, Except.toBool])
        | ok col =>
          by_cases hq : q < mkRat 1 20
          · rw [assessDriftLoop_cons_vd_lt m (l ++ rest) d n cols q col hdcc
              (by simpa [isValueDriftMetric] using hvd) hval hq hcol]
            rw [ih _ hl]
            rw [show driftedColumnsSpec (m :: l) = col :: driftedColumnsSpec l from by
              simp [driftedColumnsSpec, List.filter_cons, hvd, valueBelowDriftThreshold, hval,
                hq, extractedColumnOf, hcol]]
            simp
          · rw [assessDriftLoop_cons_vd_ge m (l ++ rest) d n cols q hdcc
              (by simpa [isValueDriftMetric] using hvd) hval hq]
            rw [ih _ hl]
            rw [show driftedColumnsSpec (m :: l) = driftedColumnsSpec l from by
              simp [driftedColumnsSpec, List.filter_cons, valueBelowDriftThreshold, hval, hq]]
      | dict kvs =>
        rw [hval] at hwf
        simp at hwf
      | other =>
        rw [hval] at hwf
        simp at hwf
    · rw [Bool.not_eq_true] at hvd
      rw [assessDriftLoop_cons_skip m (l ++ rest) d n cols hdcc
        (by simpa [isValueDriftMetric] using hvd)]
      rw [ih _ hl]
      rw [show driftedColumnsSpec (m :: l) = driftedColumnsSpec l from by
        simp [driftedColumnsSpec, List.filter_cons, hvd]]

/-- C5: `assess_data_drift` declares drift exactly when the unique
`DriftedColumnsCount` metric has `share` above 0.5, and collects the
`column=` name of every `ValueDrift` metric whose value is below 0.05. -/
theorem c5_assess_data_drift_spec (r : DriftReport) (m0 : Metric) (sh cnt : ℚ)
    (hwf : ∀ m ∈ r, wfAssessMetric m = true)
    (hone : r.filter isDriftedColumnsMetric = [m0])
    (hval : driftedCountValues m0.value = Except.ok (sh, cnt)) :
    assess_data_drift r =
      Except.ok (decide (mkRat 1 2 < sh), ratTruncate cnt, driftedColumnsSpec r) := by
  rcases List.filter_eq_cons_iff.mp hone with ⟨l1, l2, hr, hl1, hm0, hl2⟩
  subst hr
  have hm0' : isDriftedColumnsMetric m0 = true := hm0
  have hl1' : ∀ m ∈ l1, wfAssessMetric m = true ∧ isDriftedColumnsMetric m = false := by
    intro m hm
    refine ⟨hwf m (by simp [hm]), ?_⟩
    simpa using hl1 m hm
  have hl2' : ∀ m ∈ l2, wfAssessMetric m = true ∧ isDriftedColumnsMetric m = false := by
    intro m hm
    refine ⟨hwf m (by simp [hm]), ?_⟩
    simpa using List.filter_eq_nil_iff.mp hl2 m hm
  unfold assess_data_drift
  rw [assessDriftLoop_append l1 (m0 :: l2) false 0 [] hl1']
  rw [assessDriftLoop_cons_dcc m0 l2 _ _ _ sh cnt
    (by simpa [isDriftedColumnsMetric] using hm0') hval]
  have h2 := assessDriftLoop_append l2 [] (decide (mkRat 1 2 < sh)) (ratTruncate cnt)
    ([] ++ driftedColumnsSpec l1) hl2'
  simp only [List.append_nil] at h2
  rw [h2]
  rw [driftedColumnsSpec_append]
  rw [show driftedColumnsSpec (m0 :: l2) = driftedColumnsSpec l2 from by
    simp [driftedColumnsSpec, List.filter_cons, not_valueDrift_of_driftedColumns m0 hm0']]
  simp [assessDriftLoop]

/-- Concrete report used to witness the drift-assessment theorem. -/
def sampleDriftReport : DriftReport :=
  [⟨"DriftedColumnsCount(drift_share=0.5)",
    MetricValue.dict [("share", MetricValue.num (mkRat 3 5)), ("count", MetricValue.num 3)]⟩,
   ⟨"ValueDrift(column=age)", MetricValue.num (mkRat 1 100)⟩,
   ⟨"F1Score()", MetricValue.num (mkRat 9 10)⟩,
   ⟨"ValueDrift(column=status)", MetricValue.num (mkRat 1 100)⟩]

/-- Witness for C5 at a concrete report: share 0.6 declares drift and both
sub-0.05 `ValueDrift` columns are collected. -/
theorem c5_assess_data_drift_witness :
    assess_data_drift sampleDriftReport = Except.ok (true, 3, ["age", "status"]) := by
  have h := c5_assess_data_drift_spec sampleDriftReport
    ⟨"DriftedColumnsCount(drift_share=0.5)",
      MetricValue.dict [("share", MetricValue.num (mkRat 3 5)), ("count", MetricValue.num 3)]⟩
    (mkRat 3 5) 3 (by decide) rfl rfl
  exact h.trans (congrArg Except.ok (by decide))

/-- Python `str.lower` on a whole string (ASCII model). -/
def pyLowerStr (s : String) : String :=
  String.mk (s.data.map pyToLower)

theorem takeWhile_word_append (w : List Char) (hw : ∀ c ∈ w, isWordChar c = true)
    (c0 : Char) (hc0 : isWordChar c0 = false) (rest : List Char) :
    (w ++ c0 :: rest).takeWhile isWordChar = w := by
  induction w with
  | nil => simp [List.takeWhile_cons, hc0]
  | cons a t ih =>
    have ha := hw a (List.mem_cons_self a t)
    rw [List.cons_append, List.takeWhile_cons, if_pos ha,
      ih (fun c hc => hw c (List.mem_cons_of_mem a hc))]

theorem isPrefix_of_append_cons :
    ∀ (pat w : List Char) (c0 : Char) (rest : List Char),
      pat <+: (w ++ c0 :: rest) → c0 ∉ pat → pat <+: w
  | [], _, _, _, _, _ => List.nil_prefix
  | p :: ps, [], c0, rest, h, hc => by
    exfalso
    rcases h with ⟨t, ht⟩
    rw [List.cons_append] at ht
    have : p = c0 := (List.cons.injEq _ _ _ _ ▸ ht).1
    exact hc (this ▸ List.mem_cons_self p ps)
  | p :: ps, a :: w, c0, rest, h, hc => by
    rcases h with ⟨t, ht⟩
    rw [List.cons_append] at ht
    have h1 : p = a := (List.cons.injEq _ _ _ _ ▸ ht).1
    have h2 : ps ++ t = w ++ c0 :: rest := (List.cons.injEq _ _ _ _ ▸ ht).2
    have := isPrefix_of_append_cons ps w c0 rest ⟨t, h2⟩
      (fun hm => hc (List.mem_cons_of_mem p hm))
    subst h1
    exact List.cons_prefix_cons.mpr ⟨rfl, this⟩

theorem columnCaptureAt_word_paren (w rest : List Char)
    (hw : ∀ c ∈ w, isWordChar c = true) :
    columnCaptureAt (w ++ '(' :: rest) = none := by
  have hp : ¬("column=".data.isPrefixOf (w ++ '(' :: rest)) = true := by
    intro hp
    have h2 := isPrefix_of_append_cons "column=".data w '(' rest
      (List.isPrefixOf_iff_prefix.mp hp) (by decide)
    have h3 : ('=' : Char) ∈ w := h2.subset (by decide)
    exact absurd (hw _ h3) (by decide)
  unfold columnCaptureAt
  rw [if_neg hp]

theorem findColumnArg_word_skip (w rest : List Char)
    (hw : ∀ c ∈ w, isWordChar c = true) :
    findColumnArg (w ++ '(' :: rest) = findColumnArg ('(' :: rest) := by
  induction w with
  | nil => rfl
  | cons a t ih =>
    rw [List.cons_append]
    rw [show findColumnArg (a :: (t ++ '(' :: rest)) =
      (match columnCaptureAt (a :: (t ++ '(' :: rest)) with
       | some x => some x
       | none => findColumnArg (t ++ '(' :: rest)) from rfl]
    rw [show (a :: (t ++ '(' :: rest)) = ((a :: t) ++ '(' :: rest) from rfl]
    rw [columnCaptureAt_word_paren (a :: t) rest hw]
    exact ih (fun c hc => hw c (List.mem_cons_of_mem a hc))

theorem columnCaptureAt_paren (l : List Char) : columnCaptureAt ('(' :: l) = none := by
  unfold columnCaptureAt
  rw [if_neg]
  intro h
  rw [show "column=".data = 'c' :: "olumn=".data from rfl] at h
  simp [List.isPrefixOf] at h

theorem findColumnArg_paren (l : List Char) :
    findColumnArg ('(' :: l) = findColumnArg l := by
  rw [show findColumnArg ('(' :: l) =
    (match columnCaptureAt ('(' :: l) with
     | some x => some x
     | none => findColumnArg l) from rfl]
  rw [columnCaptureAt_paren]

theorem columnCaptureAt_match (x : List Char) (hx : x ≠ [])
    (hxw : ∀ c ∈ x, isWordChar c = true) :
    columnCaptureAt ("column=".data ++ (x ++ [')'])) = some x := by
  unfold columnCaptureAt
  rw [if_pos (List.isPrefixOf_iff_prefix.mpr (List.prefix_append _ _))]
  rw [show (7 : Nat) = ("column=".data).length from rfl, List.drop_left]
  rw [takeWhile_word_append x hxw ')' (by decide) []]
  rw [if_neg (by simp [hx])]

/-- C6: `simplify_metric_name` parses `functionName(args)`, lowercases the
function name, appends `_X` lowercased when a `column=X` argument is present,
and maps the three documented examples accordingly. -/
theorem c6_simplify_metric_name_spec :
    (∀ fn args : String, fn.data ≠ [] → (∀ c ∈ fn.data, isWordChar c = true) →
      findColumnArg (fn ++ "(" ++ args ++ ")").data = none →
      simplify_metric_name (fn ++ "(" ++ args ++ ")") = pyLowerStr fn) ∧
    (∀ fn x : String, fn.data ≠ [] → (∀ c ∈ fn.data, isWordChar c = true) →
      x.data ≠ [] → (∀ c ∈ x.data, isWordChar c = true) →
      simplify_metric_name (fn ++ "(column=" ++ x ++ ")") =
        pyLowerStr fn ++ "_" ++ pyLowerStr x) ∧
    simplify_metric_name "Accuracy()" = "accuracy" ∧
    simplify_metric_name "ValueDrift(column=age_group)" = "valuedrift_age_group" ∧
    simplify_metric_name "F1Score(conf_matrix=True)" = "f1score" := by
  refine ⟨?_, ?_, by decide, by decide, by decide⟩
  · intro fn args hfn hw hno
    have hdata : (fn ++ "(" ++ args ++ ")").data = fn.data ++ '(' :: (args.data ++ [')']) := by
      simp [String.data_append]
    unfold simplify_metric_name
    rw [hno]
    rw [hdata]
    unfold simplifyBase
    rw [takeWhile_word_append fn.data hw '(' (by decide) (args.data ++ [')'])]
    rw [if_neg (by simp [hfn])]
    rfl
  · intro fn x hfn hw hx hxw
    have hdata : (fn ++ "(column=" ++ x ++ ")").data =
        fn.data ++ '(' :: ("column=".data ++ (x.data ++ [')'])) := by
      simp [String.data_append]
    unfold simplify_metric_name
    rw [hdata]
    rw [findColumnArg_word_skip fn.data ("column=".data ++ (x.data ++ [')'])) hw]
    rw [findColumnArg_paren]
    rw [show findColumnArg ("column=".data ++ (x.data ++ [')'])) =
      (match columnCaptureAt ("column=".data ++ (x.data ++ [')'])) with
       | some y => some y
       | none => findColumnArg ("olumn=".data ++ (x.data ++ [')']))) from rfl]
    rw [columnCaptureAt_match x.data hx hxw]
    unfold simplifyBase
    rw [takeWhile_word_append fn.data hw '(' (by decide) ("column=".data ++ (x.data ++ [')']))]
    rw [if_neg (by simp [hfn])]
    rw [show pyLowerStr fn ++ "_" ++ pyLowerStr x =
      String.mk ((fn.data.map pyToLower ++ ['_']) ++ x.data.map pyToLower) from rfl]
    simp

/-- Witness for C6 at concrete metric ids, instantiating both general parts. -/
theorem c6_simplify_metric_name_witness :
    simplify_metric_name ("F1Score" ++ "(" ++ "conf_matrix=True" ++ ")") = pyLowerStr "F1Score" ∧
    simplify_metric_name ("ValueDrift" ++ "(column=" ++ "age_group" ++ ")") =
      pyLowerStr "ValueDrift" ++ "_" ++ pyLowerStr "age_group" := by
  refine ⟨c6_simplify_metric_name_spec.1 "F1Score" "conf_matrix=True" ?_ ?_ ?_,
    c6_simplify_metric_name_spec.2.1 "ValueDrift" "age_group" ?_ ?_ ?_ ?_⟩ <;> decide

/-- C9 counterexample: a run of three internal spaces is not collapsed to a
single separator; `"a   b"` normalizes to `"a__b"`, which contains two
underscores rather than one. -/
theorem c9_counterexample_triple_space :
    clean_column_name "a   b" = "a__b" ∧
    (clean_column_name "a   b").data.count '_' = 2 := by
  constructor <;> decide

/-- C9 amended: normalization lowercases, makes one left-to-right replacement
pass of double spaces, trims, and replaces remaining spaces with underscores;
runs of up to two internal spaces yield one underscore (the spec example
holds) but longer runs survive as multiple underscores, and the
normalization is idempotent. -/
theorem c9_amended_normalization :
    clean_column_name " Call Failure " = "call_failure" ∧
    clean_column_name "a  b" = "a_b" ∧
    clean_column_name "a   b" = "a__b" ∧
    (∀ s : String, clean_column_name (clean_column_name s) = clean_column_name s) ∧
    (∀ t : Table, clean_column_names (clean_column_names t) = clean_column_names t) := by
  exact ⟨by decide, by decide, by decide, clean_column_name_idem, clean_column_names_idem⟩

/-- C4: validation applies its rules in order and short-circuits: a key not
ending in `.csv` fails with the invalid-type message naming the key (no
table, independently of the file content); readable content whose normalized
columns include every expected column succeeds with the parsed table; content
missing an expected column fails with the message listing the expected
columns. -/
theorem c4_validate_file_input_rules :
    (∀ (key : String) (r : Except String Table) (cols : List String),
      strEndsWith key ".csv" = false →
      (validate_file_input key r cols).1 =
        (false, none, some ("Invalid file type for " ++ key ++ ". Expected a CSV file."))) ∧
    (∀ (key : String) (t : Table) (cols : List String),
      strEndsWith key ".csv" = true →
      cols.all (fun c => (clean_column_names t).columns.contains c) = true →
      (validate_file_input key (Except.ok t) cols).1 = (true, some (clean_column_names t), none)) ∧
    (∀ (key : String) (t : Table) (cols : List String),
      strEndsWith key ".csv" = true →
      cols.all (fun c => (clean_column_names t).columns.contains c) = false →
      (validate_file_input key (Except.ok t) cols).1 =
        (false, none, some ("Input file " ++ key ++ " does not match expected structure. " ++
          "Expected columns: " ++ pyStrList cols))) := by
  refine ⟨?_, ?_, ?_⟩
  · intro key r cols hk
    unfold validate_file_input
    rw [hk]
    rfl
  · intro key t cols hk hc
    unfold validate_file_input
    rw [hk]
    simp only [Bool.not_true, Bool.false_eq_true, if_false, hc, Bool.not_true]
  · intro key t cols hk hc
    unfold validate_file_input
    rw [hk]
    simp only [Bool.not_true, Bool.false_eq_true, if_false, hc, Bool.not_false]
    rfl

/-- Witness for C4 at concrete keys, contents and schemas. -/
theorem c4_validate_file_input_witness :
    (validate_file_input "data/processing/bad.txt" (Except.ok ⟨["churn"]⟩) ["churn"]).1 =
      (false, none,
        some "Invalid file type for data/processing/bad.txt. Expected a CSV file.") ∧
    (validate_file_input "data/processing/ok.csv" (Except.ok ⟨[" Call Failure ", "churn"]⟩)
      ["call_failure"]).1 =
      (true, some ⟨["call_failure", "churn"]⟩, none) ∧
    (validate_file_input "data/processing/ok.csv" (Except.ok ⟨["churn"]⟩)
      ["call_failure", "age_group"]).1 =
      (false, none, some ("Input file data/processing/ok.csv does not match expected " ++
        "structure. Expected columns: " ++ pyStrList ["call_failure", "age_group"])) := by
  refine ⟨c4_validate_file_input_rules.1 _ _ _ (by decide), ?_, ?_⟩
  · have h := c4_validate_file_input_rules.2.1 "data/processing/ok.csv"
      ⟨[" Call Failure ", "churn"]⟩ ["call_failure"] (by decide) (by decide)
    exact h.trans (by decide)
  · have h := c4_validate_file_input_rules.2.2 "data/processing/ok.csv"
      ⟨["churn"]⟩ ["call_failure", "age_group"] (by decide) (by decide)
    exact h.trans (by decide)

/-- C10: a table carrying every input-example (numerical feature) column but
no `churn` column passes validation, and `prepare_data` then raises the
target-column `ValueError`; the registered input example itself never
contains the target column, so the schema check cannot catch its absence. -/
theorem c10_missing_target_column (key : String) (t : Table)
    (hk : strEndsWith key ".csv" = true)
    (hnum : model_input_example_columns.all
      (fun c => (clean_column_names t).columns.contains c) = true)
    (hchurn : (clean_column_names t).columns.contains TARGET_COLUMN = false) :
    (validate_file_input key (Except.ok t) model_input_example_columns).1 =
      (true, some (clean_column_names t), none) ∧
    prepare_data (clean_column_names t) = Except.error
      ("ValueError: Target column " ++ pyQuote ++ TARGET_COLUMN ++ pyQuote ++
        " not found in the dataset.") ∧
    model_input_example_columns.contains TARGET_COLUMN = false := by
  refine ⟨?_, ?_, by decide⟩
  · unfold validate_file_input
    rw [hk]
    simp only [Bool.not_true, Bool.false_eq_true, if_false, hnum, Bool.not_true]
  · unfold prepare_data
    rw [clean_column_names_idem]
    rw [if_neg (by rw [hchurn]; exact Bool.false_ne_true)]

/-- Witness for C10: a table with exactly the numerical feature columns. -/
theorem c10_missing_target_column_witness :
    (validate_file_input "data/processing/x.csv" (Except.ok ⟨NUMERICAL_COLUMNS⟩)
      model_input_example_columns).1 =
      (true, some (clean_column_names ⟨NUMERICAL_COLUMNS⟩), none) ∧
    prepare_data (clean_column_names ⟨NUMERICAL_COLUMNS⟩) = Except.error
      ("ValueError: Target column " ++ pyQuote ++ TARGET_COLUMN ++ pyQuote ++
        " not found in the dataset.") ∧
    model_input_example_columns.contains TARGET_COLUMN = false :=
  c10_missing_target_column "data/processing/x.csv" ⟨NUMERICAL_COLUMNS⟩
    (by decide) (by decide) (by decide)

/-- C7 counterexample: a dict-valued metric with one (non-numeric) sub-key
produces zero rows, not one row per sub-key. -/
theorem c7_counterexample_non_numeric_subvalue :
    (drift_metric_rows [⟨"Foo()", MetricValue.dict [("a", MetricValue.other)]⟩]).length ≠
      [("a", MetricValue.other)].length := by
  decide

/-- C7 amended: every scalar metric yields exactly one row; a dict-valued
metric yields one row per numeric sub-key, named `{simplified}[{subkey}]`
(non-numeric sub-values are skipped); any other value shape contributes no
rows and leaves the rest of the report intact. -/
theorem c7_amended_flatten_rules :
    (∀ (id : String) (q : ℚ),
      metricRows ⟨id, MetricValue.num q⟩ = [(simplify_metric_name id, q)]) ∧
    (∀ (id : String) (kvs : List (String × ℚ)),
      metricRows ⟨id, MetricValue.dict (kvs.map (fun p => (p.1, MetricValue.num p.2)))⟩ =
        kvs.map (fun p => (simplify_metric_name id ++ "[" ++ p.1 ++ "]", p.2))) ∧
    (∀ (id : String), metricRows ⟨id, MetricValue.other⟩ = []) ∧
    (∀ (a b : DriftReport) (id : String),
      drift_metric_rows (a ++ ⟨id, MetricValue.other⟩ :: b) =
        drift_metric_rows a ++ drift_metric_rows b) := by
  refine ⟨fun id q => rfl, ?_, fun id => rfl, ?_⟩
  · intro id kvs
    induction kvs with
    | nil => rfl
    | cons p kvs ih =>
      simp only [List.map_cons, metricRows, List.filterMap_cons] at ih ⊢
      rw [ih]
  · intro a b id
    unfold drift_metric_rows
    rw [List.map_append, List.flatten_append, List.map_cons]
    rw [show metricRows ⟨id, MetricValue.other⟩ = [] from rfl]
    simp

/-- C8: evaluation of `save_report_to_database` at the three decisive
environments.  When loading the secrets raises, the handler and `finally`
block themselves raise `UnboundLocalError` (the local `session` was never
assigned), so the original error is not re-raised wrapped and no session is
rolled back or closed.  When the failure happens after the session exists,
the rollback / wrap / close contract holds, as it does on success. -/
theorem c8_save_report_evaluation :
    save_report_to_database
      { loadSecrets := Except.error "RuntimeError: Failed to load database secrets: boom",
        connect := Except.ok (), parseSave := Except.ok (), grantAccess := Except.ok () } =
      { result := Except.error PyError.unboundLocal, rolledBack := false, closed := false } ∧
    save_report_to_database
      { loadSecrets := Except.ok (), connect := Except.ok (),
        parseSave := Except.error "OperationalError: could not commit", grantAccess := Except.ok () } =
      { result := Except.error (PyError.runtimeError
          ("Failed to save Evidently report run to database: " ++
            "OperationalError: could not commit")),
        rolledBack := true, closed := true } ∧
    save_report_to_database
      { loadSecrets := Except.ok (), connect := Except.ok (),
        parseSave := Except.ok (), grantAccess := Except.ok () } =
      { result := Except.ok (), rolledBack := false, closed := true } := by
  exact ⟨rfl, rfl, rfl⟩

theorem takeWhile_append_stop (p : Char → Bool) (c0 : Char) (hc : p c0 = false) :
    ∀ (A B : List Char), ((A ++ c0 :: B).takeWhile p) = A.takeWhile p
  | [], B => by simp [List.takeWhile_cons, hc]
  | a :: A, B => by
    rw [List.cons_append, List.takeWhile_cons, List.takeWhile_cons]
    by_cases hp : p a = true
    · rw [if_pos hp, if_pos hp, takeWhile_append_stop p c0 hc A B]
    · rw [if_neg hp, if_neg hp]

theorem filenameOf_append (s t : String) : filenameOf (s ++ "/" ++ t) = filenameOf t := by
  unfold filenameOf
  have hd : (s ++ "/" ++ t).data.reverse = t.data.reverse ++ '/' :: s.data.reverse := by
    simp [String.data_append]
  rw [hd, takeWhile_append_stop _ '/' (by decide)]

theorem takeWhile_eq_self_of_all (p : Char → Bool) :
    ∀ (l : List Char), (∀ c ∈ l, p c = true) → l.takeWhile p = l
  | [], _ => rfl
  | a :: l, h => by
    rw [List.takeWhile_cons, if_pos (h a (List.mem_cons_self a l)),
      takeWhile_eq_self_of_all p l (fun c hc => h c (List.mem_cons_of_mem a hc))]

theorem filenameOf_filenameOf (key : String) :
    filenameOf (filenameOf key) = filenameOf key := by
  unfold filenameOf
  rw [show (String.mk ((key.data.reverse.takeWhile (fun c => c != '/')).reverse)).data =
    (key.data.reverse.takeWhile (fun c => c != '/')).reverse from rfl]
  rw [List.reverse_reverse]
  rw [takeWhile_eq_self_of_all _ _ (fun c hc => List.mem_takeWhile_imp hc)]

/-- A fully healthy environment: every external call succeeds; the uploaded
file carries the target column and every numerical feature column; the
aliased model version is 3; the drift report is empty. -/
def pipelineEnvOk : PipelineEnv :=
  { headBucket := Except.ok true
    headObject := Except.ok ()
    fetchModel := Except.ok NUMERICAL_COLUMNS
    readFile := Except.ok ⟨TARGET_COLUMN :: NUMERICAL_COLUMNS⟩
    predict := Except.ok ()
    logPredictions := Except.ok 3
    genReport := Except.ok []
    saveReport := Except.ok ()
    driftAlert := Except.ok ()
    scoresAlert := Except.ok ()
    moveResult := fun _ => none }

/-- C3 counterexample: uploading `bad.txt` into a healthy environment first
fetches the model and moves the file into PROCESSING; the audit note on the
final ERRORED move names the processing key, not the bare filename the claim
states, and the model fetch precedes the extension check in the trace. -/
theorem c3_counterexample_bad_txt :
    (churn_prediction_pipeline pipelineEnvOk "bad.txt").1 =
      [Ev.fetchedModel,
       Ev.moved "bad.txt" FOLDER_PROCESSING "bad.txt" "",
       Ev.extChecked false,
       Ev.moved "data/processing/bad.txt" FOLDER_ERRORED "bad.txt"
         "Invalid file type for data/processing/bad.txt. Expected a CSV file."] ∧
    "Invalid file type for data/processing/bad.txt. Expected a CSV file." ≠
      "Invalid file type for bad.txt. Expected a CSV file." := by
  constructor <;> decide

/-- C3 amended: for a key whose processing-folder name does not end in
`.csv`, the pipeline fetches the model, moves the file to PROCESSING, fails
the extension check before reading any content, and moves the file to
`data/errored/{filename}` with the invalid-type audit note naming the
processing key. -/
theorem c3_amended_invalid_extension (env : PipelineEnv) (key : String) (cols : List String)
    (hhb : env.headBucket = Except.ok true) (hho : env.headObject = Except.ok ())
    (hfm : env.fetchModel = Except.ok cols)
    (hm0 : env.moveResult 0 = none) (hm1 : env.moveResult 1 = none)
    (hk : strEndsWith (FOLDER_PROCESSING ++ "/" ++ filenameOf key) ".csv" = false) :
    churn_prediction_pipeline env key =
      ([Ev.fetchedModel,
        Ev.moved key FOLDER_PROCESSING (filenameOf key) "",
        Ev.extChecked false,
        Ev.moved (FOLDER_PROCESSING ++ "/" ++ filenameOf key) FOLDER_ERRORED
          (filenameOf key)
          ("Invalid file type for " ++ (FOLDER_PROCESSING ++ "/" ++ filenameOf key) ++
            ". Expected a CSV file.")], Except.ok ()) ∧
    Ev.readData ∉ (churn_prediction_pipeline env key).1 := by
  have hfn : filenameOf (FOLDER_PROCESSING ++ "/" ++ filenameOf key) = filenameOf key := by
    rw [filenameOf_append, filenameOf_filenameOf]
  have hbody : churn_prediction_pipeline env key =
      ([Ev.fetchedModel,
        Ev.moved key FOLDER_PROCESSING (filenameOf key) "",
        Ev.extChecked false,
        Ev.moved (FOLDER_PROCESSING ++ "/" ++ filenameOf key) FOLDER_ERRORED
          (filenameOf key)
          ("Invalid file type for " ++ (FOLDER_PROCESSING ++ "/" ++ filenameOf key) ++
            ". Expected a CSV file.")], Except.ok ()) := by
    unfold churn_prediction_pipeline pipelineBody validate_file_input
    simp only [hhb, hho, hfm, move_to_folder, hm0, hm1, hk, Bool.not_false, if_true, hfn]
    rfl
  exact ⟨hbody, by rw [hbody]; simp⟩

/-- Witness for the amended C3 at the healthy environment and key `bad.txt`. -/
theorem c3_amended_invalid_extension_witness :
    churn_prediction_pipeline pipelineEnvOk "bad.txt" =
      ([Ev.fetchedModel,
        Ev.moved "bad.txt" FOLDER_PROCESSING (filenameOf "bad.txt") "",
        Ev.extChecked false,
        Ev.moved (FOLDER_PROCESSING ++ "/" ++ filenameOf "bad.txt") FOLDER_ERRORED
          (filenameOf "bad.txt")
          ("Invalid file type for " ++ (FOLDER_PROCESSING ++ "/" ++ filenameOf "bad.txt") ++
            ". Expected a CSV file.")], Except.ok ()) ∧
    Ev.readData ∉ (churn_prediction_pipeline pipelineEnvOk "bad.txt").1 :=
  c3_amended_invalid_extension pipelineEnvOk "bad.txt" NUMERICAL_COLUMNS
    rfl rfl rfl rfl rfl (by decide)

/-- C1 counterexample: in a healthy environment whose model fetch raises —
an exception before the file is moved into PROCESSING — the top-level
handler still performs a folder transition, moving the original key to
ERRORED with the wrapped message, where the claim says the run halts with no
transition. -/
theorem c1_counterexample_pre_processing_exception :
    (churn_prediction_pipeline
      { pipelineEnvOk with fetchModel := Except.error "model missing" } "data/input/f.csv").1 =
      [Ev.moved "data/input/f.csv" FOLDER_ERRORED "f.csv"
        "An unexpected error occurred in the churn prediction pipeline: model missing"] ∧
    terminalCount (churn_prediction_pipeline
      { pipelineEnvOk with fetchModel := Except.error "model missing" } "data/input/f.csv").1
      = 1 := by
  constructor <;> decide

/-- C1 amended: the top-level handler catches any exception raised inside the
flow body, before or after the PROCESSING move, and routes the tracked
current key (the original key when the failure precedes the move) to ERRORED
with the wrapped exception message as the audit note; only the handled
missing-object check returns early without any folder transition. -/
theorem c1_amended_exception_routing :
    (∀ (env : PipelineEnv) (key : String) (cols : List String) (t : Table) (m : String),
      env.headBucket = Except.ok true → env.headObject = Except.ok () →
      env.fetchModel = Except.ok cols →
      env.moveResult 0 = none → env.moveResult 1 = none →
      env.readFile = Except.ok t →
      strEndsWith (FOLDER_PROCESSING ++ "/" ++ filenameOf key) ".csv" = true →
      cols.all (fun c => (clean_column_names t).columns.contains c) = true →
      (clean_column_names t).columns.contains TARGET_COLUMN = true →
      NUMERICAL_COLUMNS.all (fun c =>
        ((clean_column_names t).columns.filter (fun c2 => c2 ≠ TARGET_COLUMN)).contains c)
        = true →
      env.predict = Except.error m →
      churn_prediction_pipeline env key =
        ([Ev.fetchedModel,
          Ev.moved key FOLDER_PROCESSING (filenameOf key) "",
          Ev.extChecked true, Ev.readData,
          Ev.moved (FOLDER_PROCESSING ++ "/" ++ filenameOf key) FOLDER_ERRORED
            (filenameOf key) (wrapPipelineError m)], Except.ok ())) ∧
    (∀ (env : PipelineEnv) (key m : String),
      env.headBucket = Except.ok true → env.headObject = Except.ok () →
      env.fetchModel = Except.error m → env.moveResult 0 = none →
      churn_prediction_pipeline env key =
        ([Ev.moved key FOLDER_ERRORED (filenameOf key) (wrapPipelineError m)],
          Except.ok ())) ∧
    (∀ (env : PipelineEnv) (key e : String),
      env.headBucket = Except.ok true → env.headObject = Except.error e →
      churn_prediction_pipeline env key = ([], Except.ok ())) := by
  refine ⟨?_, ?_, ?_⟩
  · intro env key cols t m hhb hho hfm hm0 hm1 hrf hk hcols htgt hnum hpred
    have hfn : filenameOf (FOLDER_PROCESSING ++ "/" ++ filenameOf key) = filenameOf key := by
      rw [filenameOf_append, filenameOf_filenameOf]
    unfold churn_prediction_pipeline pipelineBody validate_file_input prepare_data
    simp only [hhb, hho, hfm, move_to_folder, hm0, hm1, hrf, hk, hcols, htgt, hnum, hpred,
      clean_column_names_idem, Bool.not_true, Bool.false_eq_true, if_false, if_true, hfn]
    rfl
  · intro env key m hhb hho hfm hm0
    unfold churn_prediction_pipeline pipelineBody
    simp only [hhb, hho, hfm, move_to_folder, hm0, Bool.not_true, Bool.false_eq_true, if_false]
    rfl
  · intro env key e hhb hho
    unfold churn_prediction_pipeline pipelineBody
    simp only [hhb, hho, Bool.not_true, Bool.false_eq_true, if_false]

/-- Witness for the amended C1: a post-validation prediction failure routes
the processing key to ERRORED; a model-fetch failure routes the original key
to ERRORED; a missing object produces no transition. -/
theorem c1_amended_exception_routing_witness :
    churn_prediction_pipeline { pipelineEnvOk with predict := Except.error "boom" }
      "data/input/f.csv" =
      ([Ev.fetchedModel,
        Ev.moved "data/input/f.csv" FOLDER_PROCESSING (filenameOf "data/input/f.csv") "",
        Ev.extChecked true, Ev.readData,
        Ev.moved (FOLDER_PROCESSING ++ "/" ++ filenameOf "data/input/f.csv") FOLDER_ERRORED
          (filenameOf "data/input/f.csv") (wrapPipelineError "boom")], Except.ok ()) ∧
    churn_prediction_pipeline { pipelineEnvOk with fetchModel := Except.error "gone" }
      "data/input/f.csv" =
      ([Ev.moved "data/input/f.csv" FOLDER_ERRORED (filenameOf "data/input/f.csv")
        (wrapPipelineError "gone")], Except.ok ()) ∧
    churn_prediction_pipeline { pipelineEnvOk with headObject := Except.error "NoSuchKey" }
      "data/input/f.csv" = ([], Except.ok ()) :=
  ⟨c1_amended_exception_routing.1 _ "data/input/f.csv" NUMERICAL_COLUMNS
      ⟨TARGET_COLUMN :: NUMERICAL_COLUMNS⟩ "boom" rfl rfl rfl rfl rfl rfl
      (by decide) (by decide) (by decide) (by decide) rfl,
   c1_amended_exception_routing.2.1 _ "data/input/f.csv" "gone" rfl rfl rfl rfl,
   c1_amended_exception_routing.2.2 _ "data/input/f.csv" "NoSuchKey" rfl rfl⟩

/-- C2 counterexample: a run whose object-existence check fails performs zero
terminal folder transitions, not exactly one. -/
theorem c2_counterexample_zero_transitions :
    terminalCount (churn_prediction_pipeline
      { pipelineEnvOk with headObject := Except.error "NoSuchKey" } "data/input/f.csv").1 = 0 ∧
    (0 : Nat) ≠ 1 := by
  constructor <;> decide

/-- C2 amended: every run performs at most one terminal folder transition (in
particular no file is moved to two different terminal folders in one run),
and a fully successful run ends with the move of the renamed predictions key
to PROCESSED. -/
theorem c2_amended_terminal_transitions :
    (∀ (env : PipelineEnv) (key : String),
      terminalCount (churn_prediction_pipeline env key).1 ≤ 1) ∧
    (∀ (env : PipelineEnv) (key : String) (cols : List String) (t : Table) (ver : Nat)
      (rpt : DriftReport) (dres : Bool × Int × List String)
      (sres : Bool × Nat × List (String × ℚ)),
      env.headBucket = Except.ok true → env.headObject = Except.ok () →
      env.fetchModel = Except.ok cols →
      env.moveResult 0 = none → env.moveResult 1 = none →
      env.readFile = Except.ok t →
      strEndsWith (FOLDER_PROCESSING ++ "/" ++ filenameOf key) ".csv" = true →
      cols.all (fun c => (clean_column_names t).columns.contains c) = true →
      (clean_column_names t).columns.contains TARGET_COLUMN = true →
      NUMERICAL_COLUMNS.all (fun c =>
        ((clean_column_names t).columns.filter (fun c2 => c2 ≠ TARGET_COLUMN)).contains c)
        = true →
      env.predict = Except.ok () → env.logPredictions = Except.ok ver →
      env.genReport = Except.ok rpt → env.saveReport = Except.ok () →
      assess_data_drift rpt = Except.ok dres →
      assess_prediction_scores rpt (mkRat 7 10) = Except.ok sres →
      env.driftAlert = Except.ok () → env.scoresAlert = Except.ok () →
      churn_prediction_pipeline env key =
        ([Ev.fetchedModel,
          Ev.moved key FOLDER_PROCESSING (filenameOf key) "",
          Ev.extChecked true, Ev.readData,
          Ev.renamed (FOLDER_PROCESSING ++ "/" ++ filenameOf key)
            (FOLDER_PROCESSING ++ "/" ++
              predictionsFilename (FOLDER_PROCESSING ++ "/" ++ filenameOf key) ver),
          Ev.moved
            (FOLDER_PROCESSING ++ "/" ++
              predictionsFilename (FOLDER_PROCESSING ++ "/" ++ filenameOf key) ver)
            FOLDER_PROCESSED
            (filenameOf (FOLDER_PROCESSING ++ "/" ++
              predictionsFilename (FOLDER_PROCESSING ++ "/" ++ filenameOf key) ver))
            ""], Except.ok ())) := by
  constructor
  · intro env key
    rcases hb : pipelineBody env key with ⟨tr, idx, out⟩
    have hc := pipelineBody_count env key tr idx out hb
    cases out with
    | finished =>
      unfold churn_prediction_pipeline
      rw [hb]
      exact hc.1
    | raised m latest =>
      unfold churn_prediction_pipeline move_to_folder
      rw [hb]
      have h0 := hc.2 m latest rfl
      cases hmi : env.moveResult idx with
      | some e =>
        simp only [hmi]
        simp only [terminalCount] at h0 ⊢
        simp [h0]
      | none =>
        simp only [hmi]
        simp only [terminalCount] at h0 ⊢
        simp only [List.filter_append, List.length_append, h0]
        simp [isTerminalMove_moved, folder_beq_3, folder_beq_4]
  · intro env key cols t ver rpt dres sres hhb hho hfm hm0 hm1 hrf hk hcols htgt hnum
      hpred hlog hrep hsave hass hsc halert hsalert
    rcases dres with ⟨isD, nD, cD⟩
    rcases sres with ⟨anyB, nB, lB⟩
    unfold churn_prediction_pipeline pipelineBody validate_file_input prepare_data
    simp only [hhb, hho, hfm, move_to_folder, hm0, hm1, hrf, hk, hcols, htgt, hnum,
      hpred, hlog, hrep, hsave, hass, hsc, clean_column_names_idem,
      Bool.not_true, Bool.false_eq_true, if_false, if_true]
    cases isD <;> cases anyB <;>
      simp only [halert, hsalert, if_true, if_false, Bool.false_eq_true] <;> rfl

/-- Witness for the amended C2: a fully successful run over the healthy
environment ends by moving the renamed predictions file to PROCESSED. -/
theorem c2_amended_terminal_transitions_witness :
    churn_prediction_pipeline pipelineEnvOk "data/input/customers.csv" =
      ([Ev.fetchedModel,
        Ev.moved "data/input/customers.csv" FOLDER_PROCESSING
          (filenameOf "data/input/customers.csv") "",
        Ev.extChecked true, Ev.readData,
        Ev.renamed (FOLDER_PROCESSING ++ "/" ++ filenameOf "data/input/customers.csv")
          (FOLDER_PROCESSING ++ "/" ++
            predictionsFilename
              (FOLDER_PROCESSING ++ "/" ++ filenameOf "data/input/customers.csv") 3),
        Ev.moved
          (FOLDER_PROCESSING ++ "/" ++
            predictionsFilename
              (FOLDER_PROCESSING ++ "/" ++ filenameOf "data/input/customers.csv") 3)
          FOLDER_PROCESSED
          (filenameOf (FOLDER_PROCESSING ++ "/" ++
            predictionsFilename
              (FOLDER_PROCESSING ++ "/" ++ filenameOf "data/input/customers.csv") 3))
          ""], Except.ok ()) :=
  c2_amended_terminal_transitions.2 pipelineEnvOk "data/input/customers.csv"
    NUMERICAL_COLUMNS ⟨TARGET_COLUMN :: NUMERICAL_COLUMNS⟩ 3 [] (false, 0, [])
    (false, 0, []) rfl rfl rfl rfl rfl rfl (by decide) (by decide) (by decide)
    (by decide) rfl rfl rfl rfl rfl rfl rfl rfl
